import Mathlib

/-!
Verification development for the healthcare pricing repository
(`etl.py`, `app.py`, `models/__init__.py`).

The Python source is shallowly embedded: strings are modelled as Lean
strings over their character lists (ASCII-faithful models of the `str`
methods used), Python floats as exact rationals (`ℚ`), nullable values as
`Option`, database tables as lists of records, and the two float-valued
trigonometric helpers (`calculate_distance`) over the reals.
-/

set_option maxHeartbeats 1000000

/-! ### Character-class primitives (ASCII models of Python `str` predicates) -/

/-- Characters Python `str.strip` and `str.split` treat as whitespace (ASCII range). -/
def pyIsSpace (c : Char) : Bool :=
  c.toNat = 32 || c.toNat = 9 || c.toNat = 10 || c.toNat = 13 || c.toNat = 11 || c.toNat = 12

/-- Python `str.isprintable` per character, restricted to ASCII: codepoints below 32
and DEL are not printable; higher codepoints are treated as printable. -/
def pyIsPrintable (c : Char) : Bool :=
  32 ≤ c.toNat && c.toNat ≠ 127

/-- Python `str.isdigit` per character (ASCII digits 0-9). -/
def pyIsDigit (c : Char) : Bool :=
  48 ≤ c.toNat && c.toNat ≤ 57

/-- Python `str.isalpha` per character (ASCII letters). -/
def pyIsAlpha (c : Char) : Bool :=
  (65 ≤ c.toNat && c.toNat ≤ 90) || (97 ≤ c.toNat && c.toNat ≤ 122)

/-- Python `str.isalnum` per character (ASCII letters and digits). -/
def pyIsAlnum (c : Char) : Bool :=
  pyIsAlpha c || pyIsDigit c

/-- Python `str.strip` on a character list. -/
def pyStripList (l : List Char) : List Char :=
  ((l.dropWhile pyIsSpace).reverse.dropWhile pyIsSpace).reverse

/-- Python `str.strip`. -/
def pyStrip (s : String) : String :=
  ⟨pyStripList s.toList⟩

/-- Python `str.split()` with no separator: whitespace-delimited words, no empties.
The accumulator holds the current word reversed. -/
def splitWSAux : List Char → List Char → List (List Char)
  | [], acc => if acc.isEmpty then [] else [acc.reverse]
  | c :: cs, acc =>
    if pyIsSpace c then
      if acc.isEmpty then splitWSAux cs [] else acc.reverse :: splitWSAux cs []
    else splitWSAux cs (c :: acc)

/-- Python `' '.join(words)` on character lists. -/
def joinSpace : List (List Char) → List Char
  | [] => []
  | [w] => w
  | w :: ws => w ++ ' ' :: joinSpace ws

/-- The whitespace-collapsing step `' '.join(text.split())` of `clean_text_field`. -/
def collapseWhitespace (l : List Char) : List Char :=
  joinSpace (splitWSAux l [])

/-- Python `str.upper` (ASCII case mapping). -/
def pyUpper (s : String) : String :=
  ⟨s.toList.map Char.toUpper⟩

/-- Python `str.lower` (ASCII case mapping). -/
def pyLower (s : String) : String :=
  ⟨s.toList.map Char.toLower⟩

/-- Python `str.title` (ASCII): a letter is upper-cased after a non-letter,
lower-cased after a letter; the boolean carries whether the previous character was a letter. -/
def pyTitleAux : Bool → List Char → List Char
  | _, [] => []
  | prevAlpha, c :: cs =>
    (if pyIsAlpha c then (if prevAlpha then c.toLower else c.toUpper) else c) ::
      pyTitleAux (pyIsAlpha c) cs

/-- Python `str.title`. -/
def pyTitle (s : String) : String :=
  ⟨pyTitleAux false s.toList⟩

/-- Python `needle in hay` on character lists: some suffix of the haystack
starts with the needle. -/
def listContains : List Char → List Char → Bool
  | [], needle => needle.isEmpty
  | c :: t, needle => needle.isPrefixOf (c :: t) || listContains t needle

/-- Python substring test `needle in hay` on strings. -/
def strContains (hay needle : String) : Bool :=
  listContains hay.toList needle.toList

/-! ### `etl.py`: text cleaning and row extraction -/

/-- `HealthcareDataETL.clean_text_field` (etl.py lines 90-117): empty in, empty out;
otherwise strip, drop non-printable characters (whitespace kept), collapse internal
whitespace runs to single spaces, and truncate to `maxLength` when given and exceeded
(a zero maximum is falsy in Python and disables truncation). -/
def clean_text_field (text : String) (maxLength : Option Nat) : String :=
  if text = "" then ""
  else
    let t1 := pyStripList text.toList
    let t2 := t1.filter (fun c => pyIsPrintable c || pyIsSpace c)
    let t3 := collapseWhitespace t2
    match maxLength with
    | some m => if m ≠ 0 && t3.length > m then ⟨t3.take m⟩ else ⟨t3⟩
    | none => ⟨t3⟩

/-- One raw CSV row as `process_batch` sees it: the text columns the ETL reads
(missing keys behave as empty strings) and the four numeric-like columns
(`none` models a pandas NaN for a missing value). -/
structure RawRow where
  Rndrng_Prvdr_CCN : String
  Rndrng_Prvdr_Org_Name : String
  Rndrng_Prvdr_City : String
  Rndrng_Prvdr_State_Abrvtn : String
  Rndrng_Prvdr_Zip5 : String
  DRG_Cd : String
  DRG_Desc : String
  Tot_Dschrgs : Option String
  Avg_Submtd_Cvrd_Chrg : Option String
  Avg_Tot_Pymt_Amt : Option String
  Avg_Mdcr_Pymt_Amt : Option String
deriving DecidableEq, Repr

/-- A provider record: the five columns of the `providers` table
(models/__init__.py), also the shape `clean_provider_data` returns. -/
structure Provider where
  provider_id : String
  provider_name : String
  provider_city : String
  provider_state : String
  provider_zip_code : String
deriving DecidableEq, Repr

/-- The zip-code normalisation inside `clean_provider_data` (etl.py lines 189-194):
keep only digits, left-zero-pad below five digits, truncate above five. -/
def normalize_zip (s : String) : String :=
  let z := s.toList.filter pyIsDigit
  if z.length < 5 then ⟨List.replicate (5 - z.length) '0' ++ z⟩
  else if z.length > 5 then ⟨z.take 5⟩
  else ⟨z⟩

/-- `HealthcareDataETL.clean_provider_data` (etl.py lines 166-209): clean the five
provider fields, reject the row when any is empty, then normalise zip to five digits,
state to an upper-case two-letter code, and title-case the city. -/
def clean_provider_data (row : RawRow) : Option Provider :=
  let provider_id := clean_text_field row.Rndrng_Prvdr_CCN none
  let provider_name := clean_text_field row.Rndrng_Prvdr_Org_Name (some 255)
  let provider_city := clean_text_field row.Rndrng_Prvdr_City (some 100)
  let provider_state := clean_text_field row.Rndrng_Prvdr_State_Abrvtn none
  let zip0 := clean_text_field row.Rndrng_Prvdr_Zip5 none
  if provider_id == "" || provider_name == "" || provider_city == "" ||
      provider_state == "" || zip0 == "" then none
  else
    some
      { provider_id := provider_id
        provider_name := provider_name
        provider_city := pyTitle provider_city
        provider_state := ⟨(pyUpper provider_state).toList.take 2⟩
        provider_zip_code := normalize_zip zip0 }

/-- The shape `clean_procedure_data` returns. -/
structure ProcedureData where
  ms_drg_code : String
  ms_drg_description : String
deriving DecidableEq, Repr

/-- `HealthcareDataETL.clean_procedure_data` (etl.py lines 211-240): clean code and
description, reject when either is empty, strip non-alphanumeric characters from the code. -/
def clean_procedure_data (row : RawRow) : Option ProcedureData :=
  let code := clean_text_field row.DRG_Cd none
  let desc := clean_text_field row.DRG_Desc (some 500)
  if code == "" || desc == "" then none
  else some { ms_drg_code := ⟨code.toList.filter pyIsAlnum⟩, ms_drg_description := desc }

/-- The shape `clean_financial_data` returns: each field independently nullable. -/
structure FinancialData where
  total_discharges : Option ℚ
  average_covered_charges : Option ℚ
  average_total_payments : Option ℚ
  average_medicare_payments : Option ℚ
deriving DecidableEq, Repr

/-- Digit run to a natural number. -/
def digitsToNat (l : List Char) : Nat :=
  l.foldl (fun a c => a * 10 + (c.toNat - 48)) 0

/-- Model of Python `float(str)` on the plain decimal forms the data uses: optional
sign, digits around an optional dot (at least one digit overall); anything else is a
parse failure. -/
def pyFloat (s : String) : Option ℚ :=
  let t := pyStripList s.toList
  let signed : ℚ × List Char :=
    match t with
    | '-' :: rest => (-1, rest)
    | '+' :: rest => (1, rest)
    | l => (1, l)
  let sign := signed.1
  let u := signed.2
  let ip := u.takeWhile (fun c => c != '.')
  let rest := u.dropWhile (fun c => c != '.')
  if ip.all pyIsDigit then
    match rest with
    | [] => if ip.isEmpty then none else some (sign * (digitsToNat ip : ℚ))
    | _ :: fp =>
      if fp.all pyIsDigit && !(ip.isEmpty && fp.isEmpty) then
        some (sign * ((digitsToNat ip : ℚ) + (digitsToNat fp : ℚ) / (10 ^ fp.length : ℚ)))
      else none
  else none

/-- `clean_numeric` inside `clean_financial_data` (etl.py lines 260-269): NaN or empty
becomes null; otherwise drop `$` and `,`, strip, and parse as a float, null on failure
(an all-symbol value strips to the empty string, which is falsy, hence null). -/
def clean_numeric (value : Option String) : Option ℚ :=
  match value with
  | none => none
  | some v =>
    if v = "" then none
    else
      let w := pyStripList (v.toList.filter (fun c => c != '$' && c != ','))
      if w.isEmpty then none else pyFloat ⟨w⟩

/-- `HealthcareDataETL.clean_financial_data` (etl.py lines 242-291): coerce the four
numeric-like columns independently, reject the row only when all four are null. -/
def clean_financial_data (row : RawRow) : Option FinancialData :=
  let td := clean_numeric row.Tot_Dschrgs
  let acc := clean_numeric row.Avg_Submtd_Cvrd_Chrg
  let atp := clean_numeric row.Avg_Tot_Pymt_Amt
  let amp := clean_numeric row.Avg_Mdcr_Pymt_Amt
  if td.isNone && acc.isNone && atp.isNone && amp.isNone then none
  else
    some
      { total_discharges := td
        average_covered_charges := acc
        average_total_payments := atp
        average_medicare_payments := amp }

/-- `HealthcareDataETL.filter_ny_providers` (etl.py lines 293-314): keep exactly the
rows whose state column, stripped and upper-cased, equals NY. -/
def filter_ny_providers (batch : List RawRow) : List RawRow :=
  batch.filter (fun row => pyUpper (pyStrip row.Rndrng_Prvdr_State_Abrvtn) == "NY")

/-- `HealthcareDataETL.generate_mock_rating` (etl.py lines 316-330): seeds Python's
PRNG with `hash(provider_id) % 2**32` and draws `randint(1, 10)`. The seeded draw is
modelled as a deterministic in-range function of the identifier, with Lean's
`String.hash` standing in for Python's hash composed with the seeded generator. -/
def generate_mock_rating (provider_id : String) : Nat :=
  1 + (provider_id.hash.toNat % 2 ^ 32) % 10

/-! ### `etl.py`: upsert engine and batch driver -/

/-- A row of the `procedures` table (models/__init__.py): surrogate id, natural key
`ms_drg_code`, description. -/
structure Procedure where
  id : Nat
  ms_drg_code : String
  ms_drg_description : String
deriving DecidableEq, Repr

/-- A row of the `provider_procedures` association table (models/__init__.py).
Field values are `Option` because the insert branch of the upsert copies possibly-null
cleaned financial values. -/
structure ProviderProcedure where
  id : Nat
  provider_id : String
  procedure_id : Nat
  total_discharges : Option ℚ
  average_covered_charges : Option ℚ
  average_total_payments : Option ℚ
  average_medicare_payments : Option ℚ
deriving DecidableEq, Repr

/-- A row of the `ratings` table (models/__init__.py). -/
structure RatingRow where
  id : Nat
  provider_id : String
  rating : Nat
deriving DecidableEq, Repr

/-- `get_or_create_provider` (etl.py lines 332-359) acting on the providers table:
overwrite every field of the first row with the same natural key, else insert. -/
def get_or_create_provider : List Provider → Provider → List Provider
  | [], pd => [pd]
  | p :: ps, pd =>
    if p.provider_id == pd.provider_id then pd :: ps
    else p :: get_or_create_provider ps pd

/-- Recursion for `get_or_create_procedure`: update the description of the first row
with the given code, reporting its surrogate id, or report `none` when absent. -/
def upsertProcedureAux : List Procedure → ProcedureData → List Procedure × Option Nat
  | [], _ => ([], none)
  | pr :: ps, pdata =>
    if pr.ms_drg_code == pdata.ms_drg_code then
      ({ pr with ms_drg_description := pdata.ms_drg_description } :: ps, some pr.id)
    else
      let r := upsertProcedureAux ps pdata
      (pr :: r.1, r.2)

/-- `get_or_create_procedure` (etl.py lines 361-387): update the description by
natural key, else insert with a fresh surrogate id. Returns the table, the procedure's
surrogate id, and the next fresh id. -/
def get_or_create_procedure (procs : List Procedure) (pdata : ProcedureData)
    (nextId : Nat) : List Procedure × Nat × Nat :=
  match upsertProcedureAux procs pdata with
  | (l, some i) => (l, i, nextId)
  | (l, none) =>
    (l ++ [{ id := nextId, ms_drg_code := pdata.ms_drg_code,
             ms_drg_description := pdata.ms_drg_description }], nextId, nextId + 1)

/-- The update branch of `upsert_provider_procedure` (etl.py lines 412-418): overwrite
exactly the non-null incoming financial fields, leave null ones as stored. -/
def applyFinancial (pp : ProviderProcedure) (fd : FinancialData) : ProviderProcedure :=
  { pp with
    total_discharges :=
      match fd.total_discharges with
      | some v => some v
      | none => pp.total_discharges
    average_covered_charges :=
      match fd.average_covered_charges with
      | some v => some v
      | none => pp.average_covered_charges
    average_total_payments :=
      match fd.average_total_payments with
      | some v => some v
      | none => pp.average_total_payments
    average_medicare_payments :=
      match fd.average_medicare_payments with
      | some v => some v
      | none => pp.average_medicare_payments }

/-- `upsert_provider_procedure` (etl.py lines 389-428) on the association table keyed
by (provider_id, procedure_id): merge into the first matching row, else insert with a
fresh surrogate id. Returns the table and the next fresh id. -/
def upsert_provider_procedure :
    List ProviderProcedure → String → Nat → FinancialData → Nat →
      List ProviderProcedure × Nat
  | [], pid, prid, fd, nid =>
    ([{ id := nid, provider_id := pid, procedure_id := prid,
        total_discharges := fd.total_discharges,
        average_covered_charges := fd.average_covered_charges,
        average_total_payments := fd.average_total_payments,
        average_medicare_payments := fd.average_medicare_payments }], nid + 1)
  | pp :: pps, pid, prid, fd, nid =>
    if pp.provider_id == pid && pp.procedure_id == prid then
      (applyFinancial pp fd :: pps, nid)
    else
      let r := upsert_provider_procedure pps pid prid fd nid
      (pp :: r.1, r.2)

/-- `upsert_rating` (etl.py lines 430-460): overwrite the rating of the first row for
the provider, else insert with a fresh surrogate id. Returns the table and the next
fresh id. -/
def upsert_rating : List RatingRow → String → Nat → Nat → List RatingRow × Nat
  | [], pid, r, nid => ([{ id := nid, provider_id := pid, rating := r }], nid + 1)
  | e :: es, pid, r, nid =>
    if e.provider_id == pid then ({ e with rating := r } :: es, nid)
    else
      let rec_ := upsert_rating es pid r nid
      (e :: rec_.1, rec_.2)

/-- The mutable store of one ETL session: the four tables plus the autoincrement
counters for the surrogate keys. -/
structure DB where
  providers : List Provider
  procedures : List Procedure
  provider_procedures : List ProviderProcedure
  ratings : List RatingRow
  nextProcedureId : Nat
  nextPPId : Nat
  nextRatingId : Nat
deriving DecidableEq, Repr

/-- ETL-object state during one run: the store plus the `_rated_providers` set
(etl.py lines 494-501), modelled as a list. -/
structure ETLState where
  db : DB
  rated : List String
deriving DecidableEq, Repr

/-- One iteration of `process_batch`'s row loop (etl.py lines 476-508): clean the
three sub-records, skip the row as an error when any is rejected, otherwise upsert
provider, procedure and association, and, only for a provider not yet in
`_rated_providers`, generate and upsert its rating and mark it rated. The boolean
reports whether the row was processed. -/
def processRow (st : ETLState) (row : RawRow) : ETLState × Bool :=
  match clean_provider_data row, clean_procedure_data row, clean_financial_data row with
  | some pd, some prd, some fd =>
    let db := st.db
    let providers := get_or_create_provider db.providers pd
    let pres := get_or_create_procedure db.procedures prd db.nextProcedureId
    let ppres := upsert_provider_procedure db.provider_procedures pd.provider_id
      pres.2.1 fd db.nextPPId
    if pd.provider_id ∈ st.rated then
      ({ db :=
          { providers := providers, procedures := pres.1,
            provider_procedures := ppres.1, ratings := db.ratings,
            nextProcedureId := pres.2.2, nextPPId := ppres.2,
            nextRatingId := db.nextRatingId },
         rated := st.rated }, true)
    else
      let rres := upsert_rating db.ratings pd.provider_id
        (generate_mock_rating pd.provider_id) db.nextRatingId
      ({ db :=
          { providers := providers, procedures := pres.1,
            provider_procedures := ppres.1, ratings := rres.1,
            nextProcedureId := pres.2.2, nextPPId := ppres.2,
            nextRatingId := rres.2 },
         rated := pd.provider_id :: st.rated }, true)
  | _, _, _ => (st, false)

/-- `HealthcareDataETL.process_batch` (etl.py lines 462-510): fold the row loop over a
batch, accumulating the processed and error counts. -/
def process_batch (st : ETLState) (batch : List RawRow) : ETLState × Nat × Nat :=
  match batch with
  | [] => (st, 0, 0)
  | row :: rows =>
    let r := processRow st row
    let rest := process_batch r.1 rows
    (rest.1, (if r.2 then 1 else 0) + rest.2.1, (if r.2 then 0 else 1) + rest.2.2)

/-- First stored rating value for a provider, as the ORM's `scalar_one_or_none` sees it. -/
def lookupRatingValue (rs : List RatingRow) (pid : String) : Option Nat :=
  (rs.find? (fun e => e.provider_id == pid)).map (fun e => e.rating)

/-- First stored association row for a (provider, procedure) key, as
`scalar_one_or_none` sees it. -/
def findPP (pps : List ProviderProcedure) (pid : String) (prid : Nat) :
    Option ProviderProcedure :=
  pps.find? (fun e => e.provider_id == pid && e.procedure_id == prid)

/-! ### `app.py`: geo distance, provider search filters, ask endpoint -/

/-- `get_zip_coordinates` (app.py lines 112-126): the fixed lookup table; absent ZIP
codes resolve to `none`. Float literals are modelled as exact decimal rationals. -/
def get_zip_coordinates (zip_code : String) : Option (ℚ × ℚ) :=
  if zip_code = "10001" then some (40.7505, -73.9934)
  else if zip_code = "10002" then some (40.7174, -73.9897)
  else if zip_code = "10003" then some (40.7323, -73.9894)
  else if zip_code = "11201" then some (40.6943, -73.9903)
  else if zip_code = "11215" then some (40.6622, -73.9874)
  else if zip_code = "10451" then some (40.8200, -73.9200)
  else if zip_code = "11101" then some (40.7505, -73.9400)
  else if zip_code = "10301" then some (40.6415, -74.0776)
  else none

/-- `math.radians` (float maths modelled over the reals). -/
noncomputable def radiansR (x : ℝ) : ℝ := x * (Real.pi / 180)

/-- `math.atan2` modelled over the reals by its standard piecewise definition. -/
noncomputable def atan2 (y x : ℝ) : ℝ :=
  if 0 < x then Real.arctan (y / x)
  else if x < 0 then
    (if 0 ≤ y then Real.arctan (y / x) + Real.pi else Real.arctan (y / x) - Real.pi)
  else (if 0 < y then Real.pi / 2 else if y < 0 then -(Real.pi / 2) else 0)

/-- The intermediate `a` of `calculate_distance` (app.py lines 105-107). -/
noncomputable def haverA (lat1 lon1 lat2 lon2 : ℝ) : ℝ :=
  Real.sin (radiansR (lat2 - lat1) / 2) * Real.sin (radiansR (lat2 - lat1) / 2) +
    Real.cos (radiansR lat1) * Real.cos (radiansR lat2) *
      Real.sin (radiansR (lon2 - lon1) / 2) * Real.sin (radiansR (lon2 - lon1) / 2)

/-- `calculate_distance` (app.py lines 98-110): haversine distance with Earth radius
6371 km, floats modelled as reals. -/
noncomputable def calculate_distance (lat1 lon1 lat2 lon2 : ℝ) : ℝ :=
  6371 * (2 * atan2 (Real.sqrt (haverA lat1 lon1 lat2 lon2))
    (Real.sqrt (1 - haverA lat1 lon1 lat2 lon2)))

/-- Banker's rounding of a rational to an integer (ties to even), the rounding Python's
`round` uses. -/
def roundHalfEven (q : ℚ) : ℤ :=
  if q - ⌊q⌋ < 1 / 2 then ⌊q⌋
  else if q - ⌊q⌋ > 1 / 2 then ⌊q⌋ + 1
  else if ⌊q⌋ % 2 = 0 then ⌊q⌋ else ⌊q⌋ + 1

/-- Python `round(x, 2)` modelled on exact rationals. -/
def pyRound2 (q : ℚ) : ℚ := (roundHalfEven (q * 100) : ℚ) / 100

/-- One result row of `search_providers` as far as the radius filter inspects it:
the provider's ZIP and the `distance_km` annotation (absent until the filter adds it). -/
structure SearchRow where
  provider_id : String
  provider_zip_code : String
  distance_km : Option ℚ
deriving DecidableEq, Repr

/-- The radius filter of `search_providers` (app.py lines 283-300), parametric in the
distance function (the float-valued `calculate_distance` is modelled separately over
the reals): with a truthy zip and radius, a resolvable target keeps exactly the
candidates whose own ZIP resolves and whose distance is at most the radius, annotating
each with the two-decimal rounded distance; an unresolvable target, or a falsy zip or
radius, passes the candidate list through untouched. -/
def location_filter (dist : ℚ × ℚ → ℚ × ℚ → ℚ) (zip : Option String)
    (radius_km : Option ℚ) (providers : List SearchRow) : List SearchRow :=
  match zip, radius_km with
  | some z, some r =>
    if z = "" ∨ r = 0 then providers
    else
      match get_zip_coordinates z with
      | some target =>
        providers.filterMap (fun p =>
          match get_zip_coordinates p.provider_zip_code with
          | some pc =>
            if dist target pc ≤ r then
              some { p with distance_km := some (pyRound2 (dist target pc)) }
            else none
          | none => none)
      | none => providers
  | _, _ => providers

/-- One joined result row of `search_providers` as far as the DRG filter inspects it. -/
structure QueryRow where
  provider_id : String
  ms_drg_code : String
  ms_drg_description : String
deriving DecidableEq, Repr

/-- Python `str.isdigit` on a whole string: non-empty and all digits. -/
def pyIsdigitStr (s : String) : Bool :=
  !s.toList.isEmpty && s.toList.all pyIsDigit

/-- The DRG filter of `search_providers` (app.py lines 252-258): a truthy all-digit
filter keeps exact code matches, any other truthy filter keeps case-insensitive
substring matches on the description (`ilike` with surrounding wildcards); an absent or
empty filter keeps everything. -/
def drg_filter (drg : Option String) (rows : List QueryRow) : List QueryRow :=
  match drg with
  | none => rows
  | some d =>
    if d = "" then rows
    else if pyIsdigitStr d then rows.filter (fun r => r.ms_drg_code == d)
    else rows.filter (fun r => strContains (pyLower r.ms_drg_description) (pyLower d))

/-- The fixed denylist of `ask_question` (app.py line 328). -/
def dangerous_keywords : List String :=
  ["DROP", "DELETE", "INSERT", "UPDATE", "ALTER", "CREATE"]

/-- The response shape of `/ask` (app.py lines 82-86); result rows are modelled as
column-name/serialized-value pairs. -/
structure AskResponse where
  question : String
  sql_query : String
  results : List (List (String × String))
  message : String
deriving DecidableEq, Repr

/-- `ask_question` (app.py lines 308-374) after the external translator has produced
`sql_query`; the store is abstracted as an execution oracle `execQuery`. The boolean
of the result records whether the store was queried at all. A denied query is answered
with an empty `sql_query`, no results and the refusal message without touching the
store; an execution failure is caught and answered with the translated query, no
results and the rephrase message. -/
def ask_question (question : String) (sql_query : String)
    (execQuery : String → Except String (List (List (String × String)))) :
    AskResponse × Bool :=
  if dangerous_keywords.any (fun k => strContains (pyUpper sql_query) k) then
    ({ question := question, sql_query := "", results := [],
       message := "Sorry, I can only answer read-only questions about healthcare data." },
     false)
  else
    match execQuery sql_query with
    | .ok results =>
      ({ question := question, sql_query := sql_query, results := results,
         message := "Found " ++ toString results.length ++ " results for your query." },
       true)
    | .error _ =>
      ({ question := question, sql_query := sql_query, results := [],
         message := "Sorry, I couldn't execute that query. Please try rephrasing your question." },
       true)

/-! ### Claim theorems -/

/-- C4: an /ask request whose translated query contains a mutating keyword from the
fixed denylist (matched case-insensitively on the upper-cased query) is refused before
execution: the store is never touched, the results list is empty, the message is the
refusal message, and no error state is raised (the handler returns normally). -/
theorem C4_denylist_refusal (question sql_query : String)
    (execQuery : String → Except String (List (List (String × String))))
    (h : dangerous_keywords.any (fun k => strContains (pyUpper sql_query) k) = true) :
    ask_question question sql_query execQuery =
      ({ question := question, sql_query := "", results := [],
         message := "Sorry, I can only answer read-only questions about healthcare data." },
       false) := by
  simp [ask_question, h]

/-- Witness for C4 at a concrete refused query. -/
theorem C4_denylist_refusal_witness :
    ask_question "drop the providers table" "DROP TABLE providers"
        (fun _ => Except.ok [[("x", "1")]]) =
      ({ question := "drop the providers table", sql_query := "", results := [],
         message := "Sorry, I can only answer read-only questions about healthcare data." },
       false) :=
  C4_denylist_refusal "drop the providers table" "DROP TABLE providers"
    (fun _ => Except.ok [[("x", "1")]]) (by decide)

/-- C8: a translated query that passes the denylist but fails at the store is caught
rather than surfaced: the response carries an empty results list, the rephrase message,
and the translated query text unchanged. -/
theorem C8_exec_failure_caught (question sql_query err : String)
    (execQuery : String → Except String (List (List (String × String))))
    (h1 : dangerous_keywords.any (fun k => strContains (pyUpper sql_query) k) = false)
    (h2 : execQuery sql_query = Except.error err) :
    ask_question question sql_query execQuery =
      ({ question := question, sql_query := sql_query, results := [],
         message := "Sorry, I couldn't execute that query. Please try rephrasing your question." },
       true) := by
  simp [ask_question, h1, h2]

/-- Witness for C8 at a concrete failing query. -/
theorem C8_exec_failure_caught_witness :
    ask_question "cheapest hospitals" "SELEC * FROM providers"
        (fun _ => Except.error "syntax error") =
      ({ question := "cheapest hospitals", sql_query := "SELEC * FROM providers",
         results := [],
         message := "Sorry, I couldn't execute that query. Please try rephrasing your question." },
       true) :=
  C8_exec_failure_caught "cheapest hospitals" "SELEC * FROM providers" "syntax error"
    (fun _ => Except.error "syntax error") (by decide) rfl

/-- C10: the refusal path blanks the sql_query field of the response, while the
execution-failure path returns the translated query text. -/
theorem C10_refusal_blank_sql (q1 sql1 q2 sql2 err : String)
    (e1 e2 : String → Except String (List (List (String × String))))
    (h1 : dangerous_keywords.any (fun k => strContains (pyUpper sql1) k) = true)
    (h2 : dangerous_keywords.any (fun k => strContains (pyUpper sql2) k) = false)
    (h3 : e2 sql2 = Except.error err) :
    (ask_question q1 sql1 e1).1.sql_query = "" ∧
    (ask_question q2 sql2 e2).1.sql_query = sql2 := by
  constructor
  · simp [ask_question, h1]
  · simp [ask_question, h2, h3]

/-- Witness for C10 at concrete refused and failing queries. -/
theorem C10_refusal_blank_sql_witness :
    (ask_question "q" "DELETE FROM ratings" (fun _ => Except.ok [])).1.sql_query = "" ∧
    (ask_question "q" "SELECT 1" (fun _ => Except.error "boom")).1.sql_query =
      "SELECT 1" :=
  C10_refusal_blank_sql "q" "DELETE FROM ratings" "q" "SELECT 1" "boom"
    (fun _ => Except.ok []) (fun _ => Except.error "boom")
    (by decide) (by decide) rfl

/-- Updating an existing association row rewrites it in place: the upsert applied to a
table whose first (provider, procedure) match is `pp` leaves `applyFinancial pp fd` as
the first match. -/
theorem findPP_upsert (pps : List ProviderProcedure) (pid : String) (prid : Nat)
    (fd : FinancialData) (nid : Nat) (pp : ProviderProcedure)
    (h : findPP pps pid prid = some pp) :
    findPP (upsert_provider_procedure pps pid prid fd nid).1 pid prid =
      some (applyFinancial pp fd) := by
  induction pps with
  | nil => simp [findPP] at h
  | cons e es ih =>
    rw [findPP] at h
    by_cases hc : (e.provider_id == pid && e.procedure_id == prid) = true
    · rw [List.find?_cons_of_pos es hc] at h
      have he : e = pp := by injection h
      subst he
      have hc2 : ((applyFinancial e fd).provider_id == pid &&
          (applyFinancial e fd).procedure_id == prid) = true := by
        simpa [applyFinancial] using hc
      simp only [upsert_provider_procedure, hc, if_true]
      rw [findPP, List.find?_cons_of_pos es hc2]
    · rw [List.find?_cons_of_neg es hc] at h
      have ihh := ih h
      simp only [upsert_provider_procedure, hc, if_false, Bool.false_eq_true]
      rw [findPP, List.find?_cons_of_neg ((upsert_provider_procedure es pid prid fd nid).1) hc]
      exact ihh

/-- C1: upserting financial data against an existing (provider, procedure) association
updates that row in place so that every financial field with a null incoming value
keeps its stored value, every field with a non-null incoming value is overwritten with
it, and the surrogate id and the two key columns are untouched. -/
theorem C1_upsert_financial_frame (pps : List ProviderProcedure) (pid : String)
    (prid : Nat) (fd : FinancialData) (nid : Nat) (pp : ProviderProcedure)
    (h : findPP pps pid prid = some pp) :
    findPP (upsert_provider_procedure pps pid prid fd nid).1 pid prid =
      some (applyFinancial pp fd) ∧
    (applyFinancial pp fd).id = pp.id ∧
    (applyFinancial pp fd).provider_id = pp.provider_id ∧
    (applyFinancial pp fd).procedure_id = pp.procedure_id ∧
    (fd.total_discharges = none →
      (applyFinancial pp fd).total_discharges = pp.total_discharges) ∧
    (fd.total_discharges ≠ none →
      (applyFinancial pp fd).total_discharges = fd.total_discharges) ∧
    (fd.average_covered_charges = none →
      (applyFinancial pp fd).average_covered_charges = pp.average_covered_charges) ∧
    (fd.average_covered_charges ≠ none →
      (applyFinancial pp fd).average_covered_charges = fd.average_covered_charges) ∧
    (fd.average_total_payments = none →
      (applyFinancial pp fd).average_total_payments = pp.average_total_payments) ∧
    (fd.average_total_payments ≠ none →
      (applyFinancial pp fd).average_total_payments = fd.average_total_payments) ∧
    (fd.average_medicare_payments = none →
      (applyFinancial pp fd).average_medicare_payments = pp.average_medicare_payments) ∧
    (fd.average_medicare_payments ≠ none →
      (applyFinancial pp fd).average_medicare_payments = fd.average_medicare_payments) := by
  refine ⟨findPP_upsert pps pid prid fd nid pp h, rfl, rfl, rfl, ?_, ?_, ?_, ?_, ?_, ?_, ?_, ?_⟩
  · intro hx; simp [applyFinancial, hx]
  · intro hx
    rcases ho : fd.total_discharges with _ | v
    · exact absurd ho hx
    · simp [applyFinancial, ho]
  · intro hx; simp [applyFinancial, hx]
  · intro hx
    rcases ho : fd.average_covered_charges with _ | v
    · exact absurd ho hx
    · simp [applyFinancial, ho]
  · intro hx; simp [applyFinancial, hx]
  · intro hx
    rcases ho : fd.average_total_payments with _ | v
    · exact absurd ho hx
    · simp [applyFinancial, ho]
  · intro hx; simp [applyFinancial, hx]
  · intro hx
    rcases ho : fd.average_medicare_payments with _ | v
    · exact absurd ho hx
    · simp [applyFinancial, ho]

/-- Concrete stored association row used by the C1 witness. -/
def ppW : ProviderProcedure :=
  { id := 0, provider_id := "330101", procedure_id := 3,
    total_discharges := some 25, average_covered_charges := none,
    average_total_payments := some 11000, average_medicare_payments := some 9000 }

/-- Concrete incoming financial data used by the C1 witness: two null fields, two
non-null fields. -/
def fdW : FinancialData :=
  { total_discharges := none, average_covered_charges := some 43000,
    average_total_payments := some 12500, average_medicare_payments := none }

/-- Witness for C1 at a concrete existing association. -/
theorem C1_upsert_financial_frame_witness :
    findPP (upsert_provider_procedure [ppW] "330101" 3 fdW 7).1 "330101" 3 =
      some (applyFinancial ppW fdW) ∧
    (applyFinancial ppW fdW).id = ppW.id ∧
    (applyFinancial ppW fdW).provider_id = ppW.provider_id ∧
    (applyFinancial ppW fdW).procedure_id = ppW.procedure_id ∧
    (fdW.total_discharges = none →
      (applyFinancial ppW fdW).total_discharges = ppW.total_discharges) ∧
    (fdW.total_discharges ≠ none →
      (applyFinancial ppW fdW).total_discharges = fdW.total_discharges) ∧
    (fdW.average_covered_charges = none →
      (applyFinancial ppW fdW).average_covered_charges = ppW.average_covered_charges) ∧
    (fdW.average_covered_charges ≠ none →
      (applyFinancial ppW fdW).average_covered_charges = fdW.average_covered_charges) ∧
    (fdW.average_total_payments = none →
      (applyFinancial ppW fdW).average_total_payments = ppW.average_total_payments) ∧
    (fdW.average_total_payments ≠ none →
      (applyFinancial ppW fdW).average_total_payments = fdW.average_total_payments) ∧
    (fdW.average_medicare_payments = none →
      (applyFinancial ppW fdW).average_medicare_payments = ppW.average_medicare_payments) ∧
    (fdW.average_medicare_payments ≠ none →
      (applyFinancial ppW fdW).average_medicare_payments = fdW.average_medicare_payments) :=
  C1_upsert_financial_frame [ppW] "330101" 3 fdW 7 ppW (by decide)

/-- The executable substring test agrees with the mathematical infix relation. -/
theorem listContains_iff (hay needle : List Char) :
    listContains hay needle = true ↔ needle <:+: hay := by
  induction hay with
  | nil => simp [listContains, List.infix_nil, List.isEmpty_iff]
  | cons c t ih =>
    rw [listContains, Bool.or_eq_true, ih, List.isPrefixOf_iff_prefix,
      List.infix_cons_iff]

/-- String version of `listContains_iff`. -/
theorem strContains_iff (hay needle : String) :
    strContains hay needle = true ↔ needle.toList <:+: hay.toList :=
  listContains_iff hay.toList needle.toList

/-- C6: a row survives the region filter exactly when its state column, trimmed and
upper-cased, equals NY; in particular a padded lower-case " ny " row is retained and an
"NJ" row is excluded. -/
theorem C6_region_filter (batch : List RawRow) (row rowa rowb : RawRow)
    (ha : rowa.Rndrng_Prvdr_State_Abrvtn = " ny ")
    (hb : rowb.Rndrng_Prvdr_State_Abrvtn = "NJ") :
    (row ∈ filter_ny_providers batch ↔
      row ∈ batch ∧ pyUpper (pyStrip row.Rndrng_Prvdr_State_Abrvtn) = "NY") ∧
    rowa ∈ filter_ny_providers [rowa] ∧
    rowb ∉ filter_ny_providers [rowb] := by
  refine ⟨?_, ?_, ?_⟩
  · simp [filter_ny_providers, List.mem_filter]
  · have hg : (pyUpper (pyStrip rowa.Rndrng_Prvdr_State_Abrvtn) == "NY") = true := by
      rw [ha]; decide
    simp [filter_ny_providers, List.mem_filter, hg]
  · have hg : (pyUpper (pyStrip rowb.Rndrng_Prvdr_State_Abrvtn) == "NY") = false := by
      rw [hb]; decide
    simp [filter_ny_providers, List.mem_filter, hg]

/-- Concrete retained row for the C6 witness: state " ny ", all other columns inert. -/
def rowNY : RawRow :=
  { Rndrng_Prvdr_CCN := "330101", Rndrng_Prvdr_Org_Name := "A Hospital",
    Rndrng_Prvdr_City := "NEW YORK", Rndrng_Prvdr_State_Abrvtn := " ny ",
    Rndrng_Prvdr_Zip5 := "10001", DRG_Cd := "001", DRG_Desc := "Heart Transplant",
    Tot_Dschrgs := some "10", Avg_Submtd_Cvrd_Chrg := some "1000",
    Avg_Tot_Pymt_Amt := some "800", Avg_Mdcr_Pymt_Amt := some "700" }

/-- Concrete excluded row for the C6 witness: state NJ. -/
def rowNJ : RawRow :=
  { rowNY with Rndrng_Prvdr_State_Abrvtn := "NJ" }

/-- Witness for C6 at concrete rows. -/
theorem C6_region_filter_witness :
    (rowNY ∈ filter_ny_providers [rowNY] ↔
      rowNY ∈ [rowNY] ∧ pyUpper (pyStrip rowNY.Rndrng_Prvdr_State_Abrvtn) = "NY") ∧
    rowNY ∈ filter_ny_providers [rowNY] ∧
    rowNJ ∉ filter_ny_providers [rowNJ] :=
  C6_region_filter [rowNY] rowNY rowNY rowNJ rfl rfl

/-- C7: with a non-empty drg filter, an all-digit value keeps exactly the rows whose
procedure code equals it, and any other value keeps exactly the rows whose description
contains the value as a case-insensitive substring. -/
theorem C7_drg_filter (d : String) (rows : List QueryRow) (r : QueryRow)
    (hd : d ≠ "") :
    (pyIsdigitStr d = true →
      (r ∈ drg_filter (some d) rows ↔ r ∈ rows ∧ r.ms_drg_code = d)) ∧
    (pyIsdigitStr d = false →
      (r ∈ drg_filter (some d) rows ↔
        r ∈ rows ∧ (pyLower d).toList <:+: (pyLower r.ms_drg_description).toList)) := by
  constructor
  · intro hdig
    simp [drg_filter, hd, hdig, List.mem_filter]
  · intro hdig
    simp [drg_filter, hd, hdig, List.mem_filter, strContains_iff]

/-- Concrete joined row for the C7 witness. -/
def qrowW : QueryRow :=
  { provider_id := "330101", ms_drg_code := "001",
    ms_drg_description := "HEART TRANSPLANT OR IMPLANT" }

/-- Witness for C7 at a concrete row and filter. -/
theorem C7_drg_filter_witness :
    (pyIsdigitStr "001" = true →
      (qrowW ∈ drg_filter (some "001") [qrowW] ↔
        qrowW ∈ [qrowW] ∧ qrowW.ms_drg_code = "001")) ∧
    (pyIsdigitStr "001" = false →
      (qrowW ∈ drg_filter (some "001") [qrowW] ↔
        qrowW ∈ [qrowW] ∧
          (pyLower "001").toList <:+: (pyLower qrowW.ms_drg_description).toList)) :=
  C7_drg_filter "001" [qrowW] qrowW (by decide)

/-- Upserting a rating for one provider does not disturb the stored rating of any
other provider. -/
theorem lookupRating_upsert_ne (rs : List RatingRow) (pid pid2 : String) (r nid : Nat)
    (h : pid2 ≠ pid) :
    lookupRatingValue (upsert_rating rs pid2 r nid).1 pid = lookupRatingValue rs pid := by
  induction rs with
  | nil => simp [upsert_rating, lookupRatingValue, h]
  | cons e es ih =>
    by_cases hc : (e.provider_id == pid2) = true
    · have h2 : e.provider_id = pid2 := by simpa using hc
      have he : e.provider_id ≠ pid := by simpa [h2] using h
      simp [upsert_rating, hc, lookupRatingValue, he]
    · simp only [upsert_rating, hc, if_false, Bool.false_eq_true]
      by_cases hp : (e.provider_id == pid) = true
      · simp [lookupRatingValue, hp]
      · have hp2 : (e.provider_id == pid) = false := by simpa using hp
        simp only [lookupRatingValue, List.find?] at ih ⊢
        rw [hp2]
        exact ih

/-- One row of the batch loop never changes the stored rating of a provider already
marked rated, and never unmarks it. -/
theorem processRow_preserves_rating (st : ETLState) (row : RawRow) (pid : String)
    (h : pid ∈ st.rated) :
    lookupRatingValue (processRow st row).1.db.ratings pid =
      lookupRatingValue st.db.ratings pid ∧
    pid ∈ (processRow st row).1.rated := by
  unfold processRow
  rcases hpd : clean_provider_data row with _ | pd
  all_goals rcases hprd : clean_procedure_data row with _ | prd
  all_goals rcases hfd : clean_financial_data row with _ | fd
  all_goals try exact ⟨rfl, h⟩
  dsimp only
  by_cases hr : pd.provider_id ∈ st.rated
  · simpa [hr] using h
  · simp only [hr, if_false]
    have hne : pd.provider_id ≠ pid := fun he => hr (he ▸ h)
    exact ⟨lookupRating_upsert_ne st.db.ratings pid pd.provider_id
      (generate_mock_rating pd.provider_id) st.db.nextRatingId hne,
      List.mem_cons_of_mem _ h⟩

/-- The whole batch loop preserves the stored rating and the rated mark of a provider
already rated. -/
theorem process_batch_preserves_rating (batch : List RawRow) (st : ETLState)
    (pid : String) (h : pid ∈ st.rated) :
    lookupRatingValue (process_batch st batch).1.db.ratings pid =
      lookupRatingValue st.db.ratings pid ∧
    pid ∈ (process_batch st batch).1.rated := by
  induction batch generalizing st with
  | nil => exact ⟨rfl, h⟩
  | cons row rows ih =>
    have hstep := processRow_preserves_rating st row pid h
    have hrec := ih (processRow st row).1 hstep.2
    exact ⟨hrec.1.trans hstep.1, hrec.2⟩

/-- C2: every generated rating is an integer between 1 and 10 inclusive, and once a
provider is marked rated within an ETL run, processing any further batch rows neither
re-generates nor changes its stored rating, and the mark persists. -/
theorem C2_rating_range_and_stability (pid : String) (st : ETLState)
    (batch : List RawRow) (h : pid ∈ st.rated) :
    1 ≤ generate_mock_rating pid ∧ generate_mock_rating pid ≤ 10 ∧
    lookupRatingValue (process_batch st batch).1.db.ratings pid =
      lookupRatingValue st.db.ratings pid ∧
    pid ∈ (process_batch st batch).1.rated := by
  have hm : (pid.hash.toNat % 2 ^ 32) % 10 < 10 := Nat.mod_lt _ (by norm_num)
  refine ⟨?_, ?_, (process_batch_preserves_rating batch st pid h).1,
    (process_batch_preserves_rating batch st pid h).2⟩
  · unfold generate_mock_rating
    omega
  · unfold generate_mock_rating
    omega

/-- Concrete one-provider ETL state for the C2 witness: provider 330101 already rated. -/
def stW : ETLState :=
  { db :=
      { providers := [], procedures := [], provider_procedures := [],
        ratings := [{ id := 0, provider_id := "330101", rating := 4 }],
        nextProcedureId := 0, nextPPId := 0, nextRatingId := 1 },
    rated := ["330101"] }

/-- Witness for C2: re-processing a row for the already-rated provider 330101. -/
theorem C2_rating_range_and_stability_witness :
    1 ≤ generate_mock_rating "330101" ∧ generate_mock_rating "330101" ≤ 10 ∧
    lookupRatingValue (process_batch stW [rowNY]).1.db.ratings "330101" =
      lookupRatingValue stW.db.ratings "330101" ∧
    "330101" ∈ (process_batch stW [rowNY]).1.rated :=
  C2_rating_range_and_stability "330101" stW [rowNY] (by decide)

/-- C3: when a non-empty ZIP and a non-zero radius are supplied and the target ZIP
resolves, a candidate appears in the output exactly when its own ZIP resolves and its
distance to the target is at most the radius, and it is annotated with the two-decimal
rounded distance; when the target ZIP does not resolve, the candidate list passes
through unchanged. The distance function is a parameter standing for the real-valued
`calculate_distance`. -/
theorem C3_radius_filter (dist : ℚ × ℚ → ℚ × ℚ → ℚ) (z : String) (r : ℚ)
    (providers : List SearchRow) (q : SearchRow) (target : ℚ × ℚ)
    (hz : z ≠ "") (hr : r ≠ 0) :
    (get_zip_coordinates z = some target →
      (q ∈ location_filter dist (some z) (some r) providers ↔
        ∃ p ∈ providers, ∃ pc, get_zip_coordinates p.provider_zip_code = some pc ∧
          dist target pc ≤ r ∧
          q = { p with distance_km := some (pyRound2 (dist target pc)) })) ∧
    (get_zip_coordinates z = none →
      location_filter dist (some z) (some r) providers = providers) := by
  have hcond : ¬(z = "" ∨ r = 0) := by
    rintro (h1 | h2)
    · exact hz h1
    · exact hr h2
  constructor
  · intro ht
    simp only [location_filter, if_neg hcond, ht]
    rw [List.mem_filterMap]
    constructor
    · rintro ⟨p, hp, hf⟩
      rcases hpc : get_zip_coordinates p.provider_zip_code with _ | pc
      · simp only [hpc] at hf
        exact absurd hf (by simp)
      · simp only [hpc] at hf
        by_cases hle : dist target pc ≤ r
        · rw [if_pos hle] at hf
          exact ⟨p, hp, pc, hpc, hle, (Option.some.inj hf).symm⟩
        · rw [if_neg hle] at hf
          simp at hf
    · rintro ⟨p, hp, pc, hpc, hle, hq⟩
      refine ⟨p, hp, ?_⟩
      simp only [hpc]
      rw [if_pos hle, hq]
  · intro ht
    simp only [location_filter, if_neg hcond, ht]

/-- Distance stub used by the C3 witness. -/
def distW : ℚ × ℚ → ℚ × ℚ → ℚ := fun _ _ => 0

/-- Concrete candidate row used by the C3 witness. -/
def provW : SearchRow :=
  { provider_id := "330101", provider_zip_code := "10001", distance_km := none }

/-- Witness for C3 at a concrete target ZIP, radius and candidate. -/
theorem C3_radius_filter_witness :
    (get_zip_coordinates "10002" = some (40.7174, -73.9897) →
      (provW ∈ location_filter distW (some "10002") (some 5) [provW] ↔
        ∃ p ∈ [provW], ∃ pc, get_zip_coordinates p.provider_zip_code = some pc ∧
          distW (40.7174, -73.9897) pc ≤ 5 ∧
          provW = { p with
            distance_km := some (pyRound2 (distW (40.7174, -73.9897) pc)) })) ∧
    (get_zip_coordinates "10002" = none →
      location_filter distW (some "10002") (some 5) [provW] = [provW]) :=
  C3_radius_filter distW "10002" 5 [provW] provW (40.7174, -73.9897)
    (by decide) (by decide)

/-- Digit characters are printable. -/
theorem pyIsDigit_printable (c : Char) (h : pyIsDigit c = true) :
    pyIsPrintable c = true := by
  unfold pyIsDigit at h
  unfold pyIsPrintable
  simp only [Bool.and_eq_true, decide_eq_true_eq] at h ⊢
  omega

/-- Digit characters are not whitespace. -/
theorem pyIsDigit_not_space (c : Char) (h : pyIsDigit c = true) :
    pyIsSpace c = false := by
  unfold pyIsDigit at h
  unfold pyIsSpace
  simp only [Bool.and_eq_true, decide_eq_true_eq, Bool.or_eq_false_iff,
    decide_eq_false_iff_not] at h ⊢
  omega

/-- Dropping a prefix of characters that all fail `p` does not change a `p`-filter. -/
theorem filter_dropWhile_disjoint (p q : Char → Bool)
    (hpq : ∀ c, q c = true → p c = false) (l : List Char) :
    (l.dropWhile q).filter p = l.filter p := by
  induction l with
  | nil => rfl
  | cons c t ih =>
    by_cases hc : q c = true
    · rw [List.dropWhile_cons_of_pos hc, ih, List.filter_cons_of_neg (by simp [hpq c hc])]
    · rw [List.dropWhile_cons_of_neg (by simp [Bool.not_eq_true] at hc ⊢; exact hc)]

/-- Whitespace characters are not digits. -/
theorem pyIsSpace_not_digit (c : Char) (h : pyIsSpace c = true) :
    pyIsDigit c = false := by
  unfold pyIsSpace at h
  unfold pyIsDigit
  simp only [Bool.or_eq_true, decide_eq_true_eq, Bool.and_eq_false_iff,
    decide_eq_false_iff_not] at h ⊢
  omega

/-- Stripping whitespace from both ends preserves the digit subsequence. -/
theorem filter_pyIsDigit_pyStripList (l : List Char) :
    (pyStripList l).filter pyIsDigit = l.filter pyIsDigit := by
  unfold pyStripList
  rw [List.filter_reverse, filter_dropWhile_disjoint pyIsDigit pyIsSpace
    pyIsSpace_not_digit, List.filter_reverse, List.reverse_reverse,
    filter_dropWhile_disjoint pyIsDigit pyIsSpace pyIsSpace_not_digit]

/-- The flattened output of the word splitter is the input without its whitespace. -/
theorem flatten_splitWSAux (l : List Char) : ∀ acc : List Char,
    (splitWSAux l acc).flatten = acc.reverse ++ l.filter (fun c => !pyIsSpace c) := by
  induction l with
  | nil =>
    intro acc
    by_cases ha : acc.isEmpty
    · have : acc = [] := List.isEmpty_iff.mp ha
      subst this
      simp [splitWSAux]
    · simp [splitWSAux, ha]
  | cons c cs ih =>
    intro acc
    by_cases hc : pyIsSpace c = true
    · have hfc : List.filter (fun c => !pyIsSpace c) (c :: cs) =
          List.filter (fun c => !pyIsSpace c) cs :=
        List.filter_cons_of_neg (by simp [hc])
      rw [hfc]
      by_cases ha : acc.isEmpty
      · have hae : acc = [] := List.isEmpty_iff.mp ha
        subst hae
        simp only [splitWSAux, hc, if_true, List.isEmpty_nil]
        rw [ih []]
      · simp only [splitWSAux, hc, if_true, ha, if_false, Bool.false_eq_true]
        rw [List.flatten_cons, ih []]
        simp
    · have hc2 : pyIsSpace c = false := by simpa [Bool.not_eq_true] using hc
      have hfc : List.filter (fun c => !pyIsSpace c) (c :: cs) =
          c :: List.filter (fun c => !pyIsSpace c) cs :=
        List.filter_cons_of_pos (by simp [hc2])
      rw [hfc]
      simp only [splitWSAux, hc2, Bool.false_eq_true, if_false]
      rw [ih (c :: acc)]
      simp

/-- Joining words with single spaces preserves the digit subsequence of the
concatenated words. -/
theorem filter_pyIsDigit_joinSpace : ∀ ws : List (List Char),
    (joinSpace ws).filter pyIsDigit = ws.flatten.filter pyIsDigit
  | [] => rfl
  | [w] => by simp [joinSpace]
  | w :: w2 :: ws => by
    have hj : joinSpace (w :: w2 :: ws) = w ++ ' ' :: joinSpace (w2 :: ws) := rfl
    have hsp : List.filter pyIsDigit (' ' :: joinSpace (w2 :: ws)) =
        List.filter pyIsDigit (joinSpace (w2 :: ws)) :=
      List.filter_cons_of_neg (by decide)
    rw [hj, List.filter_append, hsp, filter_pyIsDigit_joinSpace (w2 :: ws)]
    simp [List.filter_append]

/-- Collapsing whitespace runs preserves the digit subsequence. -/
theorem filter_pyIsDigit_collapseWhitespace (l : List Char) :
    (collapseWhitespace l).filter pyIsDigit = l.filter pyIsDigit := by
  unfold collapseWhitespace
  rw [filter_pyIsDigit_joinSpace, flatten_splitWSAux l []]
  simp only [List.reverse_nil, List.nil_append, List.filter_filter]
  exact List.filter_congr (fun c _ => by
    cases hd : pyIsDigit c
    · simp
    · simp [pyIsSpace_not_digit, hd, Bool.not_eq_true]
      cases hs : pyIsSpace c
      · rfl
      · exact absurd (pyIsSpace_not_digit c hs) (by simp [hd]))

/-- The full text cleaner (without truncation) preserves the digit subsequence of the
raw field. -/
theorem filter_pyIsDigit_clean_text_field (s : String) :
    (clean_text_field s none).toList.filter pyIsDigit = s.toList.filter pyIsDigit := by
  unfold clean_text_field
  by_cases hs : s = ""
  · subst hs
    rfl
  · rw [if_neg hs]
    show (collapseWhitespace ((pyStripList s.toList).filter
        (fun c => pyIsPrintable c || pyIsSpace c))).filter pyIsDigit =
      s.toList.filter pyIsDigit
    rw [filter_pyIsDigit_collapseWhitespace, List.filter_filter]
    have hcong : (pyStripList s.toList).filter
        (fun a => pyIsDigit a && (pyIsPrintable a || pyIsSpace a)) =
        (pyStripList s.toList).filter pyIsDigit :=
      List.filter_congr (fun c _ => by
        cases hd : pyIsDigit c
        · simp
        · simp [pyIsDigit_printable c hd])
    rw [hcong, filter_pyIsDigit_pyStripList]

/-- Spec-side zip normalisation, written from the spec's words: remove all non-digit
characters, left-pad with zeros to 5 digits when shorter, truncate to the first 5
digits when longer. -/
def zipSpec (s : String) : String :=
  ⟨List.replicate (5 - (s.toList.filter pyIsDigit).length) '0' ++
    (s.toList.filter pyIsDigit).take 5⟩

/-- The code's zip normalisation agrees with the pad-and-truncate form on every input. -/
theorem normalize_zip_eq_padtake (s : String) :
    normalize_zip s = ⟨List.replicate (5 - (s.toList.filter pyIsDigit).length) '0' ++
      (s.toList.filter pyIsDigit).take 5⟩ := by
  unfold normalize_zip
  set z := s.toList.filter pyIsDigit with hz
  rcases lt_trichotomy z.length 5 with h | h | h
  · rw [if_pos h, List.take_of_length_le (le_of_lt h)]
  · have h5 : 5 - z.length = 0 := by omega
    rw [if_neg (by omega), if_neg (by omega), h5,
      List.take_of_length_le (by omega), List.replicate_zero, List.nil_append]
  · have h5 : 5 - z.length = 0 := by omega
    rw [if_neg (by omega), if_pos h, h5, List.replicate_zero, List.nil_append]

/-- C5: whenever provider extraction accepts a row, the stored zip equals the raw zip
field with all non-digit characters removed, left-zero-padded to five digits when
shorter and truncated to the first five when longer; in particular "123" normalises to
"00123" and "123456" to "12345". -/
theorem C5_zip_normalization (row : RawRow) (p : Provider)
    (h : clean_provider_data row = some p) :
    p.provider_zip_code = zipSpec row.Rndrng_Prvdr_Zip5 ∧
    normalize_zip "123" = "00123" ∧ normalize_zip "123456" = "12345" := by
  refine ⟨?_, by decide, by decide⟩
  simp only [clean_provider_data] at h
  split at h
  · exact absurd h (by simp)
  · have hR := Option.some.inj h
    subst hR
    show normalize_zip (clean_text_field row.Rndrng_Prvdr_Zip5 none) =
      zipSpec row.Rndrng_Prvdr_Zip5
    rw [normalize_zip_eq_padtake, filter_pyIsDigit_clean_text_field]
    rfl

/-- Concrete row with a three-digit zip for the C5 witness. -/
def rowZ : RawRow :=
  { rowNY with Rndrng_Prvdr_Zip5 := "123" }

/-- Witness for C5 at the concrete row with zip "123". -/
theorem C5_zip_normalization_witness :
    ({ provider_id := "330101", provider_name := "A Hospital",
       provider_city := "New York", provider_state := "NY",
       provider_zip_code := "00123" } : Provider).provider_zip_code =
      zipSpec "123" ∧
    normalize_zip "123" = "00123" ∧ normalize_zip "123456" = "12345" :=
  C5_zip_normalization rowZ
    { provider_id := "330101", provider_name := "A Hospital",
      provider_city := "New York", provider_state := "NY",
      provider_zip_code := "00123" } (by decide)

/-- Swapping the endpoints leaves the haversine intermediate unchanged: the squared
sines absorb the sign flips of the coordinate differences and the cosine product
commutes. -/
theorem haverA_symm (lat1 lon1 lat2 lon2 : ℝ) :
    haverA lat1 lon1 lat2 lon2 = haverA lat2 lon2 lat1 lon1 := by
  unfold haverA
  have hs : ∀ u v : ℝ,
      Real.sin (radiansR (u - v) / 2) = -Real.sin (radiansR (v - u) / 2) := by
    intro u v
    have hneg : radiansR (u - v) = -(radiansR (v - u)) := by
      unfold radiansR
      ring
    rw [hneg, neg_div, Real.sin_neg]
  rw [hs lat2 lat1, hs lon2 lon1]
  ring

/-- The haversine intermediate vanishes on coinciding endpoints. -/
theorem haverA_self (lat lon : ℝ) : haverA lat lon lat lon = 0 := by
  unfold haverA
  have h0 : radiansR (lat - lat) = 0 := by
    unfold radiansR
    ring
  have h1 : radiansR (lon - lon) = 0 := by
    unfold radiansR
    ring
  rw [h0, h1]
  simp [zero_div, Real.sin_zero]

/-- The distance from any point to itself is zero. -/
theorem calculate_distance_self (lat lon : ℝ) :
    calculate_distance lat lon lat lon = 0 := by
  unfold calculate_distance
  rw [haverA_self]
  norm_num [atan2, Real.sqrt_zero, Real.sqrt_one, Real.arctan_zero]

/-- C9: the great-circle distance is symmetric in its two coordinate pairs, and for
every ZIP code in the lookup table the distance from its coordinates to themselves is
zero. -/
theorem C9_distance_symm_and_self (lat1 lon1 lat2 lon2 : ℝ) (z : String) (c : ℚ × ℚ)
    (h : get_zip_coordinates z = some c) :
    calculate_distance lat1 lon1 lat2 lon2 = calculate_distance lat2 lon2 lat1 lon1 ∧
    calculate_distance (c.1 : ℝ) (c.2 : ℝ) (c.1 : ℝ) (c.2 : ℝ) = 0 := by
  constructor
  · unfold calculate_distance
    rw [haverA_symm]
  · exact calculate_distance_self _ _

/-- Witness for C9 at concrete coordinates and the table entry 10001. -/
theorem C9_distance_symm_and_self_witness :
    calculate_distance 1 2 3 4 = calculate_distance 3 4 1 2 ∧
    calculate_distance ((40.7505 : ℚ) : ℝ) ((-73.9934 : ℚ) : ℝ)
      ((40.7505 : ℚ) : ℝ) ((-73.9934 : ℚ) : ℝ) = 0 :=
  C9_distance_symm_and_self 1 2 3 4 "10001" (40.7505, -73.9934)
    (by simp [get_zip_coordinates])
